import Mathlib

/-!
Verification development for the sudo audit-log server connection engine
(src/logsrvd/logsrvd.c).  The data model and operations below are a shallow
embedding of the C source: connection closures become a Lean structure,
message handlers become state-transforming functions, collaborator calls
(the sink function table, event registration, allocation) are passed in as
explicit function or Boolean parameters, and the framed wire codec works on
lists of byte values (Nat < 256).
-/

/-- Connection states, mirroring the `enum connection_status` used by the
server (INITIAL is the calloc-zero initial value). -/
inductive ConnState where
  | INITIAL
  | RUNNING
  | EXITED
  | FINISHED
  | ERROR
  | SHUTDOWN
deriving DecidableEq, Repr

/-- TimeSpec protobuf message: seconds and nanoseconds. -/
structure TimeSpec where
  tv_sec : Int
  tv_nsec : Int
deriving DecidableEq, Repr

/-- The fields of AcceptMessage that the connection engine inspects:
`submit_time` (may be absent), the number of info messages, and the
`expect_iobufs` flag. -/
structure AcceptMessage where
  submit_time : Option TimeSpec
  n_info_msgs : Nat
  expect_iobufs : Bool
deriving DecidableEq, Repr

/-- The fields of RejectMessage that the connection engine inspects. -/
structure RejectMessage where
  submit_time : Option TimeSpec
  n_info_msgs : Nat
  reason : String
deriving DecidableEq, Repr

/-- The fields of RestartMessage that the connection engine inspects. -/
structure RestartMessage where
  log_id : String
deriving DecidableEq, Repr

/-- Outbound server messages, at the granularity the claims need. -/
inductive ServerMsg where
  | hello (server_id : String)
  | log_id (id : String)
  | commit_point (point : TimeSpec)
  | error (errstr : String)
deriving DecidableEq, Repr

/-- A connection buffer: byte storage plus the logical fill level `len` and
consumed offset `off` (struct connection_buffer).  `data` holds the byte
values of the storage region; `size` is the allocated capacity. -/
structure ConnBuffer where
  data : List Nat
  size : Nat
  len : Nat
  off : Nat
deriving DecidableEq, Repr

/-- The connection closure fields that the claims are about (struct
connection_closure).  Collaborator-owned resources (socket, SSL session,
event-log descriptor) are elided; events are tracked as Booleans:
`read_ev_registered` models whether read_ev is registered with the event
base, `write_ev_present` models `write_ev != NULL` (false for relay-only
closures), `commit_ev_pending` models `ISSET(commit_ev->flags,
SUDO_EVQ_INSERTED)`, `relay_attached` models `relay_closure != NULL`,
`journal` models `journal != NULL`.  The write queue is tracked at
ServerMessage granularity.  Defaults are the calloc-zero values from
connection_closure_alloc (read buffer of 64 KiB, read/write events
allocated for a client connection). -/
structure Closure where
  state : ConnState := ConnState.INITIAL
  log_io : Bool := false
  store_first : Bool := false
  relay_attached : Bool := false
  errstr : Option String := none
  read_ev_registered : Bool := true
  write_ev_present : Bool := true
  commit_ev_pending : Bool := false
  write_queue : List ServerMsg := []
  journal : Bool := false
  journal_path : Option String := none
  read_buf : ConnBuffer := ⟨[], 65536, 0, 0⟩
deriving DecidableEq, Repr

/-- A sink entry of the client_message_switch table, already applied to the
inbound message: it consumes the closure and returns success plus the
updated closure. -/
abbrev Sink := Closure → Bool × Closure

/-- A sink that always succeeds without touching the closure (the shape of
store_exit_local, whose fchmodat failure is only logged). -/
def sinkTrue : Sink := fun c => (true, c)

/-- A sink that always fails without touching the closure. -/
def sinkFalse : Sink := fun c => (false, c)

/-- fmt_error_message: pack an ErrorMessage and append it to the write
queue; `fmt_ok` models the success of get_free_buf/packing inside
fmt_server_message. -/
def fmt_error_message (fmt_ok : Bool) (e : String) (c : Closure) : Bool × Closure :=
  if fmt_ok then (true, { c with write_queue := c.write_queue ++ [ServerMsg.error e] })
  else (false, c)

/-- schedule_error_message: refuse when there is no error string, the state
is already ERROR, or there is no write event; otherwise set the state to
ERROR, enqueue the error reply, and add the write event (`ev_add_ok`
models sudo_ev_add). -/
def schedule_error_message (errstr : Option String) (fmt_ok ev_add_ok : Bool)
    (c : Closure) : Bool × Closure :=
  match errstr with
  | none => (false, c)
  | some e =>
    if c.state = ConnState.ERROR ∨ c.write_ev_present = false then (false, c)
    else
      let c := { c with state := ConnState.ERROR }
      match fmt_error_message fmt_ok e c with
      | (false, c) => (false, c)
      | (true, c) => if ev_add_ok then (true, c) else (false, c)

/-- handle_accept: reject unless INITIAL (with "state machine error"),
validate the message fields, run the sink, and on success record
`expect_iobufs` in `log_io` and move to RUNNING. -/
def handle_accept (sink : Sink) (msg : AcceptMessage) (c : Closure) :
    Bool × Closure :=
  if c.state ≠ ConnState.INITIAL then
    (false, { c with errstr := some "state machine error" })
  else if msg.submit_time = none ∨ msg.n_info_msgs = 0 then
    (false, { c with errstr := some "invalid AcceptMessage" })
  else
    match sink c with
    | (true, c) =>
        (true, { c with log_io := if msg.expect_iobufs then true else c.log_io,
                        state := ConnState.RUNNING })
    | (false, c) => (false, c)

/-- handle_reject: reject unless INITIAL (with "state machine error"),
validate the message fields, run the sink, and on success move to
FINISHED. -/
def handle_reject (sink : Sink) (msg : RejectMessage) (c : Closure) :
    Bool × Closure :=
  if c.state ≠ ConnState.INITIAL then
    (false, { c with errstr := some "state machine error" })
  else if msg.submit_time = none ∨ msg.n_info_msgs = 0 then
    (false, { c with errstr := some "invalid RejectMessage" })
  else
    match sink c with
    | (true, c) => (true, { c with state := ConnState.FINISHED })
    | (false, c) => (false, c)

/-- handle_exit: reject unless RUNNING (with "state machine error"); run
the sink; on success move to EXITED when I/O is being logged (arming an
immediate commit event when no relay is attached) and to FINISHED
otherwise; finally deregister the read event. -/
def handle_exit (sink : Sink) (ev_add_ok : Bool) (c : Closure) :
    Bool × Closure :=
  if c.state ≠ ConnState.RUNNING then
    (false, { c with errstr := some "state machine error" })
  else
    let (ret, c) := sink c
    let (ret, c) :=
      if ret then
        if c.log_io then
          let c := { c with state := ConnState.EXITED }
          if c.relay_attached = false then
            if ev_add_ok then (ret, { c with commit_ev_pending := true })
            else (false, c)
          else (ret, c)
        else (ret, { c with state := ConnState.FINISHED })
      else (ret, c)
    (ret, { c with read_ev_registered := false })

/-- handle_restart: reject unless INITIAL (with "state machine error"); run
the sink; on success move to RUNNING, on failure deregister the read event
and schedule an error reply. -/
def handle_restart (sink : Sink) (fmt_ok ev_add_ok : Bool)
    (msg : RestartMessage) (c : Closure) : Bool × Closure :=
  if c.state ≠ ConnState.INITIAL then
    (false, { c with errstr := some "state machine error" })
  else
    match sink c with
    | (true, c) => (true, { c with state := ConnState.RUNNING })
    | (false, c) =>
        let c := { c with read_ev_registered := false }
        match schedule_error_message c.errstr fmt_ok ev_add_ok c with
        | (_, c) => (false, c)

/-- enable_commit: when no relay closure is attached and the commit event
is not already pending, arm it with an ACK_FREQUENCY timeout (`ev_add_ok`
models sudo_ev_add); when a relay is attached, do nothing. -/
def enable_commit (ev_add_ok : Bool) (c : Closure) : Bool × Closure :=
  if c.relay_attached = false then
    if c.commit_ev_pending = false then
      if ev_add_ok then (true, { c with commit_ev_pending := true })
      else (false, c)
    else (true, c)
  else (true, c)

/-- handle_iobuf: reject unless RUNNING (with "state machine error");
reject with "protocol error" when I/O is not being logged; run the sink
and then enable the commit event. -/
def handle_iobuf (iofd : Nat) (sink : Sink) (ev_add_ok : Bool) (c : Closure) :
    Bool × Closure :=
  if c.state ≠ ConnState.RUNNING then
    (false, { c with errstr := some "state machine error" })
  else if c.log_io = false then
    (false, { c with errstr := some "protocol error" })
  else
    match sink c with
    | (false, c) => (false, c)
    | (true, c) =>
      match enable_commit ev_add_ok c with
      | (false, c) => (false, c)
      | (true, c) => (true, c)

/-- handle_winsize: same guard structure as handle_iobuf. -/
def handle_winsize (sink : Sink) (ev_add_ok : Bool) (c : Closure) :
    Bool × Closure :=
  if c.state ≠ ConnState.RUNNING then
    (false, { c with errstr := some "state machine error" })
  else if c.log_io = false then
    (false, { c with errstr := some "protocol error" })
  else
    match sink c with
    | (false, c) => (false, c)
    | (true, c) =>
      match enable_commit ev_add_ok c with
      | (false, c) => (false, c)
      | (true, c) => (true, c)

/-- handle_suspend: same guard structure as handle_iobuf. -/
def handle_suspend (sink : Sink) (ev_add_ok : Bool) (c : Closure) :
    Bool × Closure :=
  if c.state ≠ ConnState.RUNNING then
    (false, { c with errstr := some "state machine error" })
  else if c.log_io = false then
    (false, { c with errstr := some "protocol error" })
  else
    match sink c with
    | (false, c) => (false, c)
    | (true, c) =>
      match enable_commit ev_add_ok c with
      | (false, c) => (false, c)
      | (true, c) => (true, c)

/-- Modelled from the spec: MESSAGE_SIZE_MAX is defined in logsrvd.h, which
is not part of the provided source.  The spec bounds it to the "hundreds of
kilobytes range" and scenario 4 requires a 1 MiB (0x00100000) prefix to
exceed it; 512 KiB satisfies both.  The theorems below use the constant
only as a bound, so they hold for any value in that range. -/
def MESSAGE_SIZE_MAX : Nat := 524288

/-- Recompose a 32-bit big-endian quantity from four bytes (the effect of
memcpy from the wire followed by ntohl). -/
def be32 (b0 b1 b2 b3 : Nat) : Nat :=
  ((b0 * 256 + b1) * 256 + b2) * 256 + b3

/-- The four bytes of htonl(n) as written to the wire (big-endian). -/
def be32enc (n : Nat) : List Nat :=
  [n / 16777216 % 256, n / 65536 % 256, n / 256 % 256, n % 256]

/-- fmt_server_message, at the byte level: given the packed record, fail if
it exceeds MESSAGE_SIZE_MAX, otherwise produce the wire frame, a 4-byte
big-endian length followed by the packed bytes (the contents of the
connection_buffer appended to the write queue). -/
def fmt_server_message (packed : List Nat) : Option (List Nat) :=
  if MESSAGE_SIZE_MAX < packed.length then none
  else some (be32enc packed.length ++ packed)

/-- Modelled from the spec: expand_buf lives in logsrv_util.c, which is not
part of the provided source.  Per the spec it grows the buffer to at least
the needed size and preserves the unconsumed tail for the next read, moving
it to offset zero. -/
def expand_buf (buf : ConnBuffer) (needed : Nat) : ConnBuffer :=
  { data := (buf.data.drop buf.off).take (buf.len - buf.off),
    size := max buf.size needed,
    len := buf.len - buf.off,
    off := 0 }

/-- The outcome of one run of the read-side decode loop of client_msg_cb:
normal fall-through (`ok`), early return on an incomplete message
(`incomplete`), or a protocol error that jumps to send_error
(`protoError`).  Each carries the buffer state at that point and the list
of complete messages handed to dispatch. -/
inductive DecodeResult where
  | ok (buf : ConnBuffer) (msgs : List (List Nat))
  | incomplete (buf : ConnBuffer) (msgs : List (List Nat))
  | protoError (errstr : String) (buf : ConnBuffer) (msgs : List (List Nat))
deriving DecidableEq, Repr

/-- The wire message size under the cursor: the `msg_len` that client_msg_cb
memcpy's from `buf->data + buf->off` and passes through ntohl. -/
def frame_len (buf : ConnBuffer) : Nat :=
  be32 (buf.data.getD buf.off 0) (buf.data.getD (buf.off + 1) 0)
    (buf.data.getD (buf.off + 2) 0) (buf.data.getD (buf.off + 3) 0)

/-- The bytes of the frame under the cursor: the `msg_len` bytes after the
length prefix, as handed to handle_client_message. -/
def frame_msg (buf : ConnBuffer) : List Nat :=
  (buf.data.drop (buf.off + 4)).take (frame_len buf)

/-- The decode loop of client_msg_cb (the `while (buf->len - buf->off >=
sizeof(msg_len))` loop): read the big-endian length prefix at `off`; fail
with "client message too large" past MESSAGE_SIZE_MAX; return early (after
expand_buf) when the frame is incomplete; otherwise advance past the prefix,
hand the frame's bytes to dispatch (`handleMsg`, failing with "invalid
ClientMessage" when it fails), advance `off`, and loop.  On fall-through the
code performs `buf->len -= buf->off; buf->off = 0` without moving any bytes,
which is embedded exactly as written. -/
def decodeLoop (handleMsg : List Nat → Bool) (buf : ConnBuffer)
    (msgs : List (List Nat)) : DecodeResult :=
  if h4 : 4 ≤ buf.len - buf.off then
    if MESSAGE_SIZE_MAX < frame_len buf then
      DecodeResult.protoError "client message too large" buf msgs
    else if hinc : buf.len - buf.off < frame_len buf + 4 then
      DecodeResult.incomplete (expand_buf buf (frame_len buf + 4)) msgs
    else if handleMsg (frame_msg buf) then
      decodeLoop handleMsg { buf with off := buf.off + 4 + frame_len buf }
        (msgs ++ [frame_msg buf])
    else
      DecodeResult.protoError "invalid ClientMessage"
        { buf with off := buf.off + 4 } msgs
  else
    DecodeResult.ok { buf with len := buf.len - buf.off, off := 0 } msgs
termination_by buf.len - buf.off
decreasing_by simp only [Nat.not_lt] at hinc; simp; omega

/-- What client_msg_cb does after the decode loop: on fall-through, check
for the FINISHED state (close) or return; on an incomplete frame, return;
on a protocol error, record the error string, delete the read event, and
run schedule_error_message, closing the connection when that fails. -/
inductive MsgCbResult where
  | returned (c : Closure)
  | closed (c : Closure)
deriving DecidableEq, Repr

/-- The message-processing tail of client_msg_cb, from the decode loop to
its return: runs the loop on the closure's read buffer and applies the
send_error / close_connection policy to the outcome. -/
def client_msg_cb_loop (handleMsg : List Nat → Bool) (fmt_ok ev_add_ok : Bool)
    (c : Closure) : MsgCbResult :=
  match decodeLoop handleMsg c.read_buf [] with
  | DecodeResult.ok buf _ =>
      let c := { c with read_buf := buf }
      if c.state = ConnState.FINISHED then MsgCbResult.closed c
      else MsgCbResult.returned c
  | DecodeResult.incomplete buf _ => MsgCbResult.returned { c with read_buf := buf }
  | DecodeResult.protoError e buf _ =>
      let c := { c with read_buf := buf, errstr := some e, read_ev_registered := false }
      match schedule_error_message c.errstr fmt_ok ev_add_ok c with
      | (true, c) => MsgCbResult.returned c
      | (false, c) => MsgCbResult.closed c

/-- The (offset, count) arguments client_msg_cb passes to the transport
read into the read buffer: the TLS path calls
`SSL_read(ssl, buf->data + buf->len, buf->size)` while the plaintext path
calls `read(fd, buf->data + buf->len, buf->size - buf->len)`. -/
def client_read_args (ssl : Bool) (buf : ConnBuffer) : Nat × Nat :=
  if ssl then (buf.len, buf.size) else (buf.len, buf.size - buf.len)

/-- A dispatch function that accepts every message. -/
def handleAll : List Nat → Bool := fun _ => true

/-- store_accept_local: build the event log entry (`evlog_ok` models
evlog_new); when `expect_iobufs`, create the I/O log (`iolog_init_ok`
models iolog_init), set `log_io`, and remember the I/O log path as the log
id; append the accept event (`eventlog_accept_ok`); and when a log id was
produced, format a LogId reply onto the write queue (`fmt_ok` models
fmt_log_id_message's buffer allocation) and add the write event
(`ev_add_ok`). -/
def store_accept_local (evlog_ok iolog_init_ok eventlog_accept_ok fmt_ok ev_add_ok : Bool)
    (msg : AcceptMessage) (iolog_path : String) (c : Closure) : Bool × Closure :=
  if evlog_ok = false then
    (false, { c with errstr := some "error parsing AcceptMessage" })
  else
    let setup : Bool × Option String × Closure :=
      if msg.expect_iobufs then
        if iolog_init_ok = false then
          (false, none, { c with errstr := some "error creating I/O log" })
        else
          (true, some iolog_path, { c with log_io := true })
      else (true, none, c)
    match setup with
    | (false, _, c) => (false, c)
    | (true, log_id, c) =>
      if eventlog_accept_ok = false then
        (false, { c with errstr := some "error logging accept event" })
      else
        match log_id with
        | none => (true, c)
        | some id =>
          if fmt_ok = false then (false, c)
          else
            let c := { c with write_queue := c.write_queue ++ [ServerMsg.log_id id] }
            if ev_add_ok = false then (false, c) else (true, c)

/-- The closure produced by connection_closure_alloc(fd, false, true, base)
for a journal-replay (relay-only) connection: calloc-zero fields, no write
or commit event, the relay sink table, a fresh 64 KiB read buffer. -/
def connection_closure_alloc_relay_only : Closure :=
  { state := ConnState.INITIAL, log_io := false, store_first := false,
    relay_attached := false, errstr := none, read_ev_registered := false,
    write_ev_present := false, commit_ev_pending := false, write_queue := [],
    journal := false, journal_path := none, read_buf := ⟨[], 65536, 0, 0⟩ }

/-- The observable effects of connection_close: the relay-only closure that
survives (transfer succeeded and connect_relay succeeded), the journal path
unlinked (if any), and the original closure's state as it is freed. -/
structure CloseResult where
  relay_conn : Option Closure
  unlinked : Option String
  final : Closure
deriving DecidableEq, Repr

/-- connection_close: when a store-first connection finished with no relay
and still holds a journal, allocate a relay-only closure (`alloc_ok` models
connection_closure_alloc), re-parent the journal handle and path into it
(nulling the original's fields), and connect the relay (`connect_ok` models
connect_relay; on failure the new closure is freed).  Then, if the closure
is FINISHED and still owns a journal path, unlink the journal file.
Finally the closure is freed. -/
def connection_close (alloc_ok connect_ok : Bool) (c : Closure) : CloseResult :=
  let step : Closure × Option Closure :=
    if c.store_first = true ∧ c.state = ConnState.FINISHED ∧
        c.relay_attached = false ∧ c.journal = true then
      if alloc_ok then
        let nc := { connection_closure_alloc_relay_only with
                      journal := c.journal, journal_path := c.journal_path }
        let c := { c with journal := false, journal_path := none }
        if connect_ok then (c, some nc) else (c, none)
      else (c, none)
    else (c, none)
  match step with
  | (c, relay_conn) =>
    let unlinked :=
      if c.state = ConnState.FINISHED ∧ c.journal_path ≠ none then c.journal_path
      else none
    ⟨relay_conn, unlinked, c⟩

/-- A freshly accepted client connection (all calloc-zero defaults). -/
def cFresh : Closure := {}

/-- A connection in RUNNING state with no I/O logging. -/
def cRunning : Closure := { state := ConnState.RUNNING }

/-- A connection in RUNNING state with I/O logging and no relay. -/
def cRunningIo : Closure := { state := ConnState.RUNNING, log_io := true }

/-- A valid AcceptMessage expecting I/O buffers (scenario 1 of the spec). -/
def amsgW : AcceptMessage := { submit_time := some ⟨1700000000, 0⟩, n_info_msgs := 2, expect_iobufs := true }

/-- A valid RejectMessage (scenario 2 of the spec). -/
def rmsgW : RejectMessage := { submit_time := some ⟨1700000000, 0⟩, n_info_msgs := 2, reason := "policy denied" }

/-- A RestartMessage naming an existing log. -/
def smsgW : RestartMessage := { log_id := "log1" }

/-- A read buffer holding one complete 1-byte frame (prefix 00 00 00 01,
payload 0xAA) followed by a 2-byte partial prefix (07 09) of the next
frame. -/
def tailData : List Nat := [0, 0, 0, 1, 170, 7, 9]

/-- A read buffer whose first frame announces 0x00100000 = 1 MiB. -/
def oversizeBuf : ConnBuffer := ⟨[0, 16, 0, 0], 65536, 4, 0⟩

/-- A fresh connection whose read buffer holds the over-size prefix. -/
def cOversize : Closure := { read_buf := oversizeBuf }

/-- A finished store-first connection still owning its journal. -/
def cStoreFirstDone : Closure := { state := ConnState.FINISHED, store_first := true, journal := true, journal_path := some "journal1" }

/-- A connection in RUNNING state with I/O logging active and a relay
closure attached. -/
def cRelayIo : Closure :=
  { state := ConnState.RUNNING, log_io := true, relay_attached := true }

/-- Helper: the decode loop returns normally (shifting len and off, but not
the data bytes) once fewer than four bytes remain unconsumed. -/
theorem decodeLoop_done (handleMsg : List Nat → Bool) (buf : ConnBuffer)
    (msgs : List (List Nat)) (h4 : buf.len - buf.off < 4) :
    decodeLoop handleMsg buf msgs =
      DecodeResult.ok { buf with len := buf.len - buf.off, off := 0 } msgs := by
  rw [decodeLoop]
  rw [dif_neg (by omega)]

/-- Helper: one iteration of the decode loop that consumes a complete,
accepted frame. -/
theorem decodeLoop_consume (handleMsg : List Nat → Bool) (buf : ConnBuffer)
    (msgs : List (List Nat))
    (h4 : 4 ≤ buf.len - buf.off)
    (hmax : frame_len buf ≤ MESSAGE_SIZE_MAX)
    (hfit : frame_len buf + 4 ≤ buf.len - buf.off)
    (hh : handleMsg (frame_msg buf) = true) :
    decodeLoop handleMsg buf msgs =
      decodeLoop handleMsg { buf with off := buf.off + 4 + frame_len buf }
        (msgs ++ [frame_msg buf]) := by
  rw [decodeLoop]
  rw [dif_pos h4]
  rw [if_neg (by omega)]
  rw [dif_neg (by omega)]
  rw [if_pos hh]

/-- Helper: the decode loop signals "client message too large" as soon as
the length prefix under the cursor decodes past MESSAGE_SIZE_MAX. -/
theorem decodeLoop_oversize (handleMsg : List Nat → Bool) (buf : ConnBuffer)
    (msgs : List (List Nat))
    (h4 : 4 ≤ buf.len - buf.off)
    (hbig : MESSAGE_SIZE_MAX < frame_len buf) :
    decodeLoop handleMsg buf msgs =
      DecodeResult.protoError "client message too large" buf msgs := by
  rw [decodeLoop]
  rw [dif_pos h4]
  rw [if_pos hbig]

/-- Helper: recomposing the four big-endian bytes of a 32-bit value yields
the value back. -/
theorem be32_be32enc (n : Nat) (h : n < 4294967296) :
    be32 (n / 16777216 % 256) (n / 65536 % 256) (n / 256 % 256) (n % 256) = n := by
  unfold be32
  omega

/-- Claim C1: for every inbound Accept, Reject, or Restart message, the
handler fails with the error string "state machine error" unless the
connection state is INITIAL; on success, Accept sets the state to RUNNING,
Reject sets it to FINISHED, and a successful Restart sets it to RUNNING. -/
theorem initial_gate_and_transitions
    (acceptSink rejectSink restartSink : Sink) (fmt_ok ev_add_ok : Bool)
    (amsg : AcceptMessage) (rmsg : RejectMessage) (smsg : RestartMessage)
    (c : Closure) :
    (c.state ≠ ConnState.INITIAL →
      handle_accept acceptSink amsg c
          = (false, { c with errstr := some "state machine error" }) ∧
      handle_reject rejectSink rmsg c
          = (false, { c with errstr := some "state machine error" }) ∧
      handle_restart restartSink fmt_ok ev_add_ok smsg c
          = (false, { c with errstr := some "state machine error" })) ∧
    ((handle_accept acceptSink amsg c).1 = true →
      (handle_accept acceptSink amsg c).2.state = ConnState.RUNNING) ∧
    ((handle_reject rejectSink rmsg c).1 = true →
      (handle_reject rejectSink rmsg c).2.state = ConnState.FINISHED) ∧
    ((handle_restart restartSink fmt_ok ev_add_ok smsg c).1 = true →
      (handle_restart restartSink fmt_ok ev_add_ok smsg c).2.state = ConnState.RUNNING) := by
  refine ⟨fun hne => ?_, ?_, ?_, ?_⟩
  · simp [handle_accept, handle_reject, handle_restart, hne]
  · intro hret
    by_cases h1 : c.state ≠ ConnState.INITIAL
    · simp [handle_accept, h1] at hret
    · by_cases h2 : amsg.submit_time = none ∨ amsg.n_info_msgs = 0
      · simp [handle_accept, h1, h2] at hret
      · rcases hs : acceptSink c with ⟨b, c1⟩
        cases b
        · simp [handle_accept, h1, h2, hs] at hret
        · simp [handle_accept, h1, h2, hs]
  · intro hret
    by_cases h1 : c.state ≠ ConnState.INITIAL
    · simp [handle_reject, h1] at hret
    · by_cases h2 : rmsg.submit_time = none ∨ rmsg.n_info_msgs = 0
      · simp [handle_reject, h1, h2] at hret
      · rcases hs : rejectSink c with ⟨b, c1⟩
        cases b
        · simp [handle_reject, h1, h2, hs] at hret
        · simp [handle_reject, h1, h2, hs]
  · intro hret
    by_cases h1 : c.state ≠ ConnState.INITIAL
    · simp [handle_restart, h1] at hret
    · rcases hs : restartSink c with ⟨b, c1⟩
      cases b
      · simp [handle_restart, h1, hs] at hret
      · simp [handle_restart, h1, hs]

/-- Witness for C1: a RUNNING connection answers Accept with "state machine
error", and a fresh INITIAL connection moves to RUNNING on a successful
Accept and to FINISHED on a successful Reject. -/
theorem initial_gate_witness :
    handle_accept sinkTrue amsgW cRunning
        = (false, { cRunning with errstr := some "state machine error" }) ∧
    (handle_accept sinkTrue amsgW cFresh).2.state = ConnState.RUNNING ∧
    (handle_reject sinkTrue rmsgW cFresh).2.state = ConnState.FINISHED ∧
    (handle_restart sinkTrue true true smsgW cFresh).2.state = ConnState.RUNNING := by
  refine ⟨?_, ?_, ?_, ?_⟩
  · exact ((initial_gate_and_transitions sinkTrue sinkTrue sinkTrue true true
      amsgW rmsgW smsgW cRunning).1 (by decide)).1
  · exact (initial_gate_and_transitions sinkTrue sinkTrue sinkTrue true true
      amsgW rmsgW smsgW cFresh).2.1 (by decide)
  · exact (initial_gate_and_transitions sinkTrue sinkTrue sinkTrue true true
      amsgW rmsgW smsgW cFresh).2.2.1 (by decide)
  · exact (initial_gate_and_transitions sinkTrue sinkTrue sinkTrue true true
      amsgW rmsgW smsgW cFresh).2.2.2 (by decide)

/-- Claim C10: for every inbound IoBuffer, ChangeWindowSize, or
CommandSuspend message, the handler fails with the error string "protocol
error" when the connection's log_io flag is false, even in the RUNNING
state. -/
theorem payload_requires_log_io (iofd : Nat)
    (iobufSink winsizeSink suspendSink : Sink) (ev_add_ok : Bool) (c : Closure)
    (hrun : c.state = ConnState.RUNNING) (hio : c.log_io = false) :
    handle_iobuf iofd iobufSink ev_add_ok c
        = (false, { c with errstr := some "protocol error" }) ∧
    handle_winsize winsizeSink ev_add_ok c
        = (false, { c with errstr := some "protocol error" }) ∧
    handle_suspend suspendSink ev_add_ok c
        = (false, { c with errstr := some "protocol error" }) := by
  simp [handle_iobuf, handle_winsize, handle_suspend, hrun, hio]

/-- Witness for C10: a RUNNING connection without I/O logging answers an
IoBuffer with "protocol error" and a failure. -/
theorem payload_requires_log_io_witness :
    handle_iobuf 1 sinkTrue true cRunning
        = (false, { cRunning with errstr := some "protocol error" }) ∧
    handle_winsize sinkTrue true cRunning
        = (false, { cRunning with errstr := some "protocol error" }) := by
  have h := payload_requires_log_io 1 sinkTrue sinkTrue sinkTrue true cRunning
    (by decide) (by decide)
  exact ⟨h.1, h.2.1⟩

/-- Counterexample to claim C5 as stated: a RUNNING connection with
log_io=true and a relay closure attached handles Exit successfully, yet
moves to EXITED rather than straight to FINISHED. -/
theorem exit_with_relay_counterexample :
    (handle_exit sinkTrue true cRelayIo).1 = true ∧
    (handle_exit sinkTrue true cRelayIo).2.state = ConnState.EXITED ∧
    (handle_exit sinkTrue true cRelayIo).2.state ≠ ConnState.FINISHED := by decide

/-- Claim C5 (amended): handle_exit reaches EXITED only from RUNNING with
the sink succeeding and log_io=true, regardless of whether a relay is
attached; a successful Exit without I/O logging goes straight to FINISHED;
and after a state-check pass the read event is always deregistered. -/
theorem exit_transition_characterization (sink : Sink) (ev_add_ok : Bool)
    (c : Closure) (hpres : ((sink c).2).state = c.state) :
    ((handle_exit sink ev_add_ok c).2.state = ConnState.EXITED →
      c.state = ConnState.EXITED ∨
        (c.state = ConnState.RUNNING ∧ (sink c).1 = true ∧
          ((sink c).2).log_io = true)) ∧
    (c.state = ConnState.RUNNING → (handle_exit sink ev_add_ok c).1 = true →
      (((sink c).2).log_io = true →
        (handle_exit sink ev_add_ok c).2.state = ConnState.EXITED) ∧
      (((sink c).2).log_io = false →
        (handle_exit sink ev_add_ok c).2.state = ConnState.FINISHED)) ∧
    (c.state = ConnState.RUNNING →
      (handle_exit sink ev_add_ok c).2.read_ev_registered = false) := by
  rcases hs : sink c with ⟨b, c1⟩
  rw [hs] at hpres
  have hp : c1.state = c.state := hpres
  by_cases hrun : c.state = ConnState.RUNNING
  · cases b
    · simp [handle_exit, hrun, hs, hp]
    · cases hio : c1.log_io
      · simp [handle_exit, hrun, hs, hio]
      · cases hrel : c1.relay_attached
        · cases ev_add_ok <;> simp [handle_exit, hrun, hs, hio, hrel]
        · simp [handle_exit, hrun, hs, hio, hrel]
  · simp [handle_exit, hrun, hpres]

/-- Witness for C5 (amended): with a relay attached and I/O logging on, a
successful Exit lands in EXITED with the read event deregistered; without
I/O logging it lands in FINISHED. -/
theorem exit_transition_witness :
    (handle_exit sinkTrue true cRelayIo).2.state = ConnState.EXITED ∧
    (handle_exit sinkTrue true cRelayIo).2.read_ev_registered = false ∧
    (handle_exit sinkTrue true cRunning).2.state = ConnState.FINISHED := by
  refine ⟨?_, ?_, ?_⟩
  · exact ((exit_transition_characterization sinkTrue true cRelayIo
      (by decide)).2.1 (by decide) (by decide)).1 (by decide)
  · exact (exit_transition_characterization sinkTrue true cRelayIo
      (by decide)).2.2 (by decide)
  · exact ((exit_transition_characterization sinkTrue true cRunning
      (by decide)).2.1 (by decide) (by decide)).2 (by decide)

/-- Claim C4 fails on the TLS path: at the initial 64 KiB buffer size with
one byte already buffered, the plaintext path asks for size - len bytes at
offset len (within bounds), but the TLS path asks SSL_read for the full
buffer size at offset len, i.e. 65537 bytes of room in a 65536-byte
buffer, writing past the end of the read buffer. -/
theorem ssl_read_past_buffer :
    (client_read_args false ⟨[], 65536, 1, 0⟩).1
        + (client_read_args false ⟨[], 65536, 1, 0⟩).2 ≤ 65536 ∧
    (client_read_args true ⟨[], 65536, 1, 0⟩).1
        + (client_read_args true ⟨[], 65536, 1, 0⟩).2 = 65537 ∧
    ¬ ((client_read_args true ⟨[], 65536, 1, 0⟩).1
        + (client_read_args true ⟨[], 65536, 1, 0⟩).2 ≤ 65536) := by decide

/-- Claim C6: the commit-point timer is scheduled only when no relay
closure is attached — enable_commit leaves it untouched (and still
succeeds) with a relay attached, and arms it otherwise; after every
successfully handled IoBuffer, ChangeWindowSize, or CommandSuspend the
timer is pending when no relay is attached and untouched when one is; and
handle_exit likewise never arms it when a relay is attached. -/
theorem commit_timer_relay_policy (iofd : Nat)
    (iobufSink winsizeSink suspendSink exitSink : Sink) (ev_add_ok : Bool)
    (c : Closure)
    (hi1 : ((iobufSink c).2).relay_attached = c.relay_attached)
    (hi2 : ((iobufSink c).2).commit_ev_pending = c.commit_ev_pending)
    (hw1 : ((winsizeSink c).2).relay_attached = c.relay_attached)
    (hw2 : ((winsizeSink c).2).commit_ev_pending = c.commit_ev_pending)
    (hs1 : ((suspendSink c).2).relay_attached = c.relay_attached)
    (hs2 : ((suspendSink c).2).commit_ev_pending = c.commit_ev_pending)
    (he1 : ((exitSink c).2).relay_attached = c.relay_attached)
    (he2 : ((exitSink c).2).commit_ev_pending = c.commit_ev_pending) :
    (c.relay_attached = true →
      (enable_commit ev_add_ok c).1 = true ∧
      (enable_commit ev_add_ok c).2.commit_ev_pending = c.commit_ev_pending) ∧
    (c.relay_attached = false → ev_add_ok = true →
      (enable_commit ev_add_ok c).2.commit_ev_pending = true) ∧
    ((handle_iobuf iofd iobufSink ev_add_ok c).1 = true →
      (c.relay_attached = false →
        (handle_iobuf iofd iobufSink ev_add_ok c).2.commit_ev_pending = true) ∧
      (c.relay_attached = true →
        (handle_iobuf iofd iobufSink ev_add_ok c).2.commit_ev_pending
          = c.commit_ev_pending)) ∧
    ((handle_winsize winsizeSink ev_add_ok c).1 = true →
      (c.relay_attached = false →
        (handle_winsize winsizeSink ev_add_ok c).2.commit_ev_pending = true) ∧
      (c.relay_attached = true →
        (handle_winsize winsizeSink ev_add_ok c).2.commit_ev_pending
          = c.commit_ev_pending)) ∧
    ((handle_suspend suspendSink ev_add_ok c).1 = true →
      (c.relay_attached = false →
        (handle_suspend suspendSink ev_add_ok c).2.commit_ev_pending = true) ∧
      (c.relay_attached = true →
        (handle_suspend suspendSink ev_add_ok c).2.commit_ev_pending
          = c.commit_ev_pending)) ∧
    (c.relay_attached = true →
      (handle_exit exitSink ev_add_ok c).2.commit_ev_pending
        = c.commit_ev_pending) := by
  have hec1 : ∀ d : Closure, d.relay_attached = true →
      enable_commit ev_add_ok d = (true, d) := by
    intro d hd
    simp [enable_commit, hd]
  have hec2 : ∀ d : Closure, d.relay_attached = false →
      (enable_commit ev_add_ok d).1 = true →
      (enable_commit ev_add_ok d).2.commit_ev_pending = true := by
    intro d hd
    cases hp : d.commit_ev_pending <;> cases ev_add_ok <;>
      simp [enable_commit, hd, hp]
  refine ⟨fun hrel => by simp [hec1 c hrel], ?_, ?_, ?_, ?_, ?_⟩
  · intro hrel hev
    cases hp : c.commit_ev_pending <;> simp [enable_commit, hrel, hev, hp]
  · rcases hib : iobufSink c with ⟨bi, ci⟩
    rw [hib] at hi1 hi2
    have hi1' : ci.relay_attached = c.relay_attached := hi1
    have hi2' : ci.commit_ev_pending = c.commit_ev_pending := hi2
    by_cases hrun : c.state = ConnState.RUNNING
    · cases hio : c.log_io
      · simp [handle_iobuf, hrun, hio]
      · cases bi
        · simp [handle_iobuf, hrun, hio, hib]
        · rcases hec : enable_commit ev_add_ok ci with ⟨be, ce⟩
          cases be <;> intro hret <;>
            simp [handle_iobuf, hrun, hio, hib, hec] at hret ⊢
          constructor
          · intro hrel
            have h := hec2 ci (hi1'.trans hrel) (by rw [hec])
            rw [hec] at h
            exact h
          · intro hrel
            have h := hec1 ci (hi1'.trans hrel)
            have h12 : ((true, ce) : Bool × Closure) = (true, ci) :=
              hec.symm.trans h
            have hce : ce = ci := congrArg Prod.snd h12
            rw [hce]
            exact hi2'
    · simp [handle_iobuf, hrun]
  · rcases hwb : winsizeSink c with ⟨bw, cw⟩
    rw [hwb] at hw1 hw2
    have hw1' : cw.relay_attached = c.relay_attached := hw1
    have hw2' : cw.commit_ev_pending = c.commit_ev_pending := hw2
    by_cases hrun : c.state = ConnState.RUNNING
    · cases hio : c.log_io
      · simp [handle_winsize, hrun, hio]
      · cases bw
        · simp [handle_winsize, hrun, hio, hwb]
        · rcases hec : enable_commit ev_add_ok cw with ⟨be, ce⟩
          cases be <;> intro hret <;>
            simp [handle_winsize, hrun, hio, hwb, hec] at hret ⊢
          constructor
          · intro hrel
            have h := hec2 cw (hw1'.trans hrel) (by rw [hec])
            rw [hec] at h
            exact h
          · intro hrel
            have h := hec1 cw (hw1'.trans hrel)
            have h12 : ((true, ce) : Bool × Closure) = (true, cw) :=
              hec.symm.trans h
            have hce : ce = cw := congrArg Prod.snd h12
            rw [hce]
            exact hw2'
    · simp [handle_winsize, hrun]
  · rcases hsb : suspendSink c with ⟨bs, cs⟩
    rw [hsb] at hs1 hs2
    have hs1' : cs.relay_attached = c.relay_attached := hs1
    have hs2' : cs.commit_ev_pending = c.commit_ev_pending := hs2
    by_cases hrun : c.state = ConnState.RUNNING
    · cases hio : c.log_io
      · simp [handle_suspend, hrun, hio]
      · cases bs
        · simp [handle_suspend, hrun, hio, hsb]
        · rcases hec : enable_commit ev_add_ok cs with ⟨be, ce⟩
          cases be <;> intro hret <;>
            simp [handle_suspend, hrun, hio, hsb, hec] at hret ⊢
          constructor
          · intro hrel
            have h := hec2 cs (hs1'.trans hrel) (by rw [hec])
            rw [hec] at h
            exact h
          · intro hrel
            have h := hec1 cs (hs1'.trans hrel)
            have h12 : ((true, ce) : Bool × Closure) = (true, cs) :=
              hec.symm.trans h
            have hce : ce = cs := congrArg Prod.snd h12
            rw [hce]
            exact hs2'
    · simp [handle_suspend, hrun]
  · intro hrel
    rcases heb : exitSink c with ⟨be, ce⟩
    rw [heb] at he1 he2
    have he1' : ce.relay_attached = c.relay_attached := he1
    have he2' : ce.commit_ev_pending = c.commit_ev_pending := he2
    by_cases hrun : c.state = ConnState.RUNNING
    · cases be
      · simp [handle_exit, hrun, heb, he2']
      · cases hio : ce.log_io
        · simp [handle_exit, hrun, heb, hio, he2']
        · simp [handle_exit, hrun, heb, hio, he1'.trans hrel, he2']
    · simp [handle_exit, hrun]

/-- Witness for C6: with a relay attached the commit timer stays unarmed
through enable_commit and a successful Exit; without a relay a successful
IoBuffer leaves the timer pending. -/
theorem commit_timer_witness :
    (enable_commit true cRelayIo).2.commit_ev_pending = cRelayIo.commit_ev_pending ∧
    (handle_iobuf 1 sinkTrue true cRunningIo).2.commit_ev_pending = true ∧
    (handle_exit sinkTrue true cRelayIo).2.commit_ev_pending = cRelayIo.commit_ev_pending := by
  have h := commit_timer_relay_policy 1 sinkTrue sinkTrue sinkTrue sinkTrue true
    cRelayIo (by decide) (by decide) (by decide) (by decide) (by decide)
    (by decide) (by decide) (by decide)
  have h' := commit_timer_relay_policy 1 sinkTrue sinkTrue sinkTrue sinkTrue true
    cRunningIo (by decide) (by decide) (by decide) (by decide) (by decide)
    (by decide) (by decide) (by decide)
  exact ⟨(h.1 (by decide)).2, (h'.2.2.1 (by decide)).1 (by decide),
    h.2.2.2.2.2 (by decide)⟩

/-- Claim C7: for a connection using the local sink, store_accept_local
enqueues a LogId reply (carrying the I/O log path) if and only if the
Accept message's expect_iobufs field was true, in which case log_io is also
set; when expect_iobufs is false no LogId is ever enqueued, successful or
not. -/
theorem logid_iff_expect_iobufs
    (evlog_ok iolog_init_ok eventlog_accept_ok fmt_ok ev_add_ok : Bool)
    (msg : AcceptMessage) (iolog_path : String) (c : Closure) :
    ((store_accept_local evlog_ok iolog_init_ok eventlog_accept_ok fmt_ok
        ev_add_ok msg iolog_path c).1 = true →
      (msg.expect_iobufs = true →
        (store_accept_local evlog_ok iolog_init_ok eventlog_accept_ok fmt_ok
            ev_add_ok msg iolog_path c).2.write_queue
          = c.write_queue ++ [ServerMsg.log_id iolog_path] ∧
        (store_accept_local evlog_ok iolog_init_ok eventlog_accept_ok fmt_ok
            ev_add_ok msg iolog_path c).2.log_io = true) ∧
      (msg.expect_iobufs = false →
        (store_accept_local evlog_ok iolog_init_ok eventlog_accept_ok fmt_ok
            ev_add_ok msg iolog_path c).2.write_queue = c.write_queue)) ∧
    (msg.expect_iobufs = false →
      (store_accept_local evlog_ok iolog_init_ok eventlog_accept_ok fmt_ok
          ev_add_ok msg iolog_path c).2.write_queue = c.write_queue) := by
  cases heb : msg.expect_iobufs <;>
    cases evlog_ok <;> cases iolog_init_ok <;> cases eventlog_accept_ok <;>
    cases fmt_ok <;> cases ev_add_ok <;>
    simp [store_accept_local, heb]

/-- Witness for C7: a fully successful local Accept with expect_iobufs=true
enqueues exactly one LogId carrying the I/O log path and sets log_io; with
expect_iobufs=false the write queue is untouched. -/
theorem logid_iff_expect_iobufs_witness :
    (store_accept_local true true true true true amsgW "iolog/00/01" cFresh).2.write_queue
      = cFresh.write_queue ++ [ServerMsg.log_id "iolog/00/01"] ∧
    (store_accept_local true true true true true amsgW "iolog/00/01" cFresh).2.log_io = true ∧
    (store_accept_local true true true true true
        { amsgW with expect_iobufs := false } "iolog/00/01" cFresh).2.write_queue
      = cFresh.write_queue := by
  have h := logid_iff_expect_iobufs true true true true true amsgW "iolog/00/01" cFresh
  have h' := logid_iff_expect_iobufs true true true true true
    { amsgW with expect_iobufs := false } "iolog/00/01" cFresh
  exact ⟨((h.1 (by decide)).1 (by decide)).1, ((h.1 (by decide)).1 (by decide)).2,
    h'.2 (by decide)⟩

/-- Claim C9: when a store-first connection is closed in FINISHED while it
still owns a journal and has no relay, the journal handle and path are
transferred exactly once into a freshly allocated relay-only closure (the
original's fields are nulled and it unlinks nothing), and the journal file
is unlinked only by a closure that is FINISHED while still owning the
journal path. -/
theorem journal_ownership_transfer (alloc_ok connect_ok : Bool) (c : Closure) :
    (c.store_first = true → c.state = ConnState.FINISHED →
      c.relay_attached = false → c.journal = true → alloc_ok = true →
      (connection_close alloc_ok connect_ok c).final.journal = false ∧
      (connection_close alloc_ok connect_ok c).final.journal_path = none ∧
      (connection_close alloc_ok connect_ok c).unlinked = none ∧
      (connect_ok = true →
        (connection_close alloc_ok connect_ok c).relay_conn =
          some { connection_closure_alloc_relay_only with
                   journal := true, journal_path := c.journal_path })) ∧
    (∀ p : String, (connection_close alloc_ok connect_ok c).unlinked = some p →
      c.state = ConnState.FINISHED ∧
      (connection_close alloc_ok connect_ok c).final.journal_path = some p ∧
      (connection_close alloc_ok connect_ok c).relay_conn = none) := by
  constructor
  · intro hsf hst hrel hj hal
    subst hal
    have hguard : c.store_first = true ∧ c.state = ConnState.FINISHED ∧
        c.relay_attached = false ∧ c.journal = true := ⟨hsf, hst, hrel, hj⟩
    cases connect_ok <;> simp [connection_close, hguard, hst, hj]
  · intro p hp
    by_cases hst : c.state = ConnState.FINISHED
    · by_cases hg2 : c.store_first = true ∧ c.relay_attached = false ∧
          c.journal = true
      · cases alloc_ok
        · by_cases hjp : c.journal_path = none
          · simp [connection_close, hst, hg2, hjp] at hp
          · simp [connection_close, hst, hg2, hjp] at hp ⊢
            simp [hp, hst]
        · cases connect_ok <;> simp [connection_close, hst, hg2] at hp
      · by_cases hjp : c.journal_path = none
        · simp [connection_close, hst, hg2, hjp] at hp
        · simp [connection_close, hst, hg2, hjp] at hp ⊢
          simp [hp, hst]
    · simp [connection_close, hst] at hp

/-- Witness for C9: closing a finished store-first connection that owns the
journal "journal1" transfers the journal into a new relay-only closure,
nulls the original's fields, and unlinks nothing. -/
theorem journal_ownership_witness :
    (connection_close true true cStoreFirstDone).final.journal_path = none ∧
    (connection_close true true cStoreFirstDone).unlinked = none ∧
    (connection_close true true cStoreFirstDone).relay_conn
      = some { connection_closure_alloc_relay_only with
                 journal := true, journal_path := some "journal1" } := by
  have h := (journal_ownership_transfer true true cStoreFirstDone).1
    (by decide) (by decide) (by decide) (by decide) (by decide)
  exact ⟨h.2.1, h.2.2.1, by simpa [cStoreFirstDone] using h.2.2.2 (by decide)⟩

/-- A buffer of seven bytes: one complete frame (length prefix 1, payload
0xAA) followed by the first two bytes (7, 9) of the next frame's prefix. -/
def tailBuf : ConnBuffer := ⟨tailData, 65536, 7, 0⟩

/-- Claim C2 fails on the code: after the decode loop consumes the complete
frame and falls through with a 2-byte tail at offset 5, the code merely
sets len := 2 and off := 0 without moving the tail, so the bytes the buffer
now presents as unconsumed (data[0..2) = [0, 0], stale prefix bytes of the
consumed frame) differ from the real unconsumed tail (data[5..7) = [7, 9]):
the buffered bytes are misplaced for the next read event. -/
theorem decode_tail_misplaced :
    decodeLoop handleAll tailBuf [] =
      DecodeResult.ok ⟨tailData, 65536, 2, 0⟩ [[170]] ∧
    (tailData.drop 5).take 2 = [7, 9] ∧
    tailData.take 2 ≠ (tailData.drop 5).take 2 := by
  refine ⟨?_, by decide, by decide⟩
  have hfl : frame_len tailBuf = 1 := by decide
  have hstep := decodeLoop_consume handleAll tailBuf [] (by decide)
    (by decide) (by decide) (by decide)
  have hdone := decodeLoop_done handleAll
    { tailBuf with off := tailBuf.off + 4 + frame_len tailBuf }
    ([] ++ [frame_msg tailBuf]) (by decide)
  rw [hstep, hdone]
  decide

/-- Claim C3: framing round-trip.  A well-formed packed record of length at
most MESSAGE_SIZE_MAX is encoded by fmt_server_message as a 4-byte
big-endian length followed by the record bytes, and running the read-side
decode loop on exactly that frame consumes it and hands the original record
to dispatch byte-for-byte. -/
theorem framing_roundtrip (rec : List Nat) (sz : Nat)
    (h : rec.length ≤ MESSAGE_SIZE_MAX) :
    fmt_server_message rec = some (be32enc rec.length ++ rec) ∧
    decodeLoop handleAll ⟨be32enc rec.length ++ rec, sz, 4 + rec.length, 0⟩ [] =
      DecodeResult.ok ⟨be32enc rec.length ++ rec, sz, 0, 0⟩ [rec] := by
  have h32 : rec.length < 4294967296 := by
    have hm : MESSAGE_SIZE_MAX < 4294967296 := by norm_num [MESSAGE_SIZE_MAX]
    omega
  set B : ConnBuffer := ⟨be32enc rec.length ++ rec, sz, 4 + rec.length, 0⟩ with hB
  have hdata : B.data = be32enc rec.length ++ rec := rfl
  have hlen4 : (be32enc rec.length).length = 4 := by simp [be32enc]
  have hfl : frame_len B = rec.length := by
    rw [frame_len, hdata]
    simp only [be32enc, List.cons_append, List.nil_append, List.getD_cons_zero,
      List.getD_cons_succ]
    exact be32_be32enc rec.length h32
  have hfm : frame_msg B = rec := by
    rw [frame_msg, hfl, hdata]
    have : B.off + 4 = (be32enc rec.length).length := by simp [hlen4, hB]
    rw [this, List.drop_left, List.take_length]
  constructor
  · simp [fmt_server_message, Nat.not_lt.mpr h]
  · have hstep := decodeLoop_consume handleAll B []
      (by simp [hB]) (by rw [hfl]; exact h) (by rw [hfl]; simp [hB]; omega)
      (by rw [hfm]; rfl)
    rw [hstep, hfl, hfm]
    have hdone := decodeLoop_done handleAll { B with off := B.off + 4 + rec.length }
      ([] ++ [rec]) (by simp [hB])
    rw [hdone]
    simp [hB]

/-- Witness for C3: the three-byte record [1, 2, 3] is framed as
[0, 0, 0, 3, 1, 2, 3] and decoding that frame yields the record back. -/
theorem framing_roundtrip_witness :
    fmt_server_message [1, 2, 3] = some [0, 0, 0, 3, 1, 2, 3] ∧
    decodeLoop handleAll ⟨[0, 0, 0, 3, 1, 2, 3], 65536, 7, 0⟩ [] =
      DecodeResult.ok ⟨[0, 0, 0, 3, 1, 2, 3], 65536, 0, 0⟩ [[1, 2, 3]] := by
  have h := framing_roundtrip [1, 2, 3] 65536 (by norm_num [MESSAGE_SIZE_MAX])
  norm_num [be32enc] at h
  exact h

/-- Claim C8: when the length prefix under the cursor exceeds
MESSAGE_SIZE_MAX (for example 0x00100000 = 1 MiB), the message-processing
path of client_msg_cb sets the error string "client message too large",
deregisters the read event, moves the connection to ERROR, and enqueues an
Error reply carrying that string (to be sent before close). -/
theorem oversize_frame_policy (handleMsg : List Nat → Bool) (c : Closure)
    (h4 : 4 ≤ c.read_buf.len - c.read_buf.off)
    (hbig : MESSAGE_SIZE_MAX < frame_len c.read_buf)
    (herr : c.state ≠ ConnState.ERROR) (hwev : c.write_ev_present = true) :
    client_msg_cb_loop handleMsg true true c = MsgCbResult.returned
      { c with errstr := some "client message too large", read_ev_registered := false, state := ConnState.ERROR, write_queue := c.write_queue ++ [ServerMsg.error "client message too large"] } := by
  rw [client_msg_cb_loop]
  rw [decodeLoop_oversize handleMsg c.read_buf [] h4 hbig]
  simp [schedule_error_message, fmt_error_message, herr, hwev]

/-- Witness for C8: a fresh connection whose read buffer starts with the
prefix 00 10 00 00 (1 MiB) is moved to ERROR with the read event removed
and an Error reply queued. -/
theorem oversize_frame_witness :
    client_msg_cb_loop handleAll true true cOversize = MsgCbResult.returned
      { cOversize with errstr := some "client message too large", read_ev_registered := false, state := ConnState.ERROR, write_queue := [ServerMsg.error "client message too large"] } := by
  have h := oversize_frame_policy handleAll cOversize (by decide) (by decide)
    (by decide) (by decide)
  simpa [cOversize] using h
